import Mathlib

/-!
Verification of the chewie-crypto-gcp core: the KMS algorithm catalog
(`get_algorithm_info`), the KMS-backed JWS signing key (`AsymmetricJwsKey`),
and the Secret Manager secret source (`SecretManagerSource.get_secret`).

The external Google Cloud collaborators (KMS client, Secret Manager client)
are modelled at their interface boundary as records of pure functions
returning `Except`: each async remote call in the Rust source becomes an
application of the corresponding oracle function.  Byte strings are lists of
naturals; external error types are type parameters, since the source never
inspects them and only wraps them.
-/

namespace ChewieCryptoGcp

/-- Byte strings (Rust `Bytes` / `&[u8]` / `Vec<u8>`), one entry per byte. -/
abbrev Bytes := List Nat

/-- The remote algorithm identifier enumeration reported by the KMS API
(`google_cloud_kms_v1::model::crypto_key_version::CryptoKeyVersionAlgorithm`).
It is external and non-exhaustive; it is modelled here with its known
variants plus `UnknownValue` standing for any future wire value. -/
inductive CryptoKeyVersionAlgorithm where
  | CryptoKeyVersionAlgorithmUnspecified
  | GoogleSymmetricEncryption
  | RsaSignPss2048Sha256
  | RsaSignPss3072Sha256
  | RsaSignPss4096Sha256
  | RsaSignPss4096Sha512
  | RsaSignPkcs12048Sha256
  | RsaSignPkcs13072Sha256
  | RsaSignPkcs14096Sha256
  | RsaSignPkcs14096Sha512
  | RsaDecryptOaep2048Sha256
  | RsaDecryptOaep3072Sha256
  | RsaDecryptOaep4096Sha256
  | RsaDecryptOaep4096Sha512
  | RsaDecryptOaep2048Sha1
  | RsaDecryptOaep3072Sha1
  | RsaDecryptOaep4096Sha1
  | EcSignP256Sha256
  | EcSignP384Sha384
  | EcSignSecp256K1Sha256
  | EcSignEd25519
  | HmacSha256
  | HmacSha1
  | HmacSha384
  | HmacSha512
  | HmacSha224
  | ExternalSymmetricEncryption
  | PqSignMlDsa65
  | PqSignSlhDsaSha2128S
  | KemXwing
  | UnknownValue (value : Nat)
  deriving DecidableEq, Repr

/-- `AlgorithmInfo` from kms.rs: a human readable algorithm name and the
JWS-compatible algorithm name. -/
structure AlgorithmInfo where
  algorithm : String
  jwt_alg : String
  deriving DecidableEq, Repr

/-- `get_algorithm_info` from kms.rs, translated match arm by match arm,
including the final wildcard arm. -/
def get_algorithm_info (a : CryptoKeyVersionAlgorithm) : Option AlgorithmInfo :=
  match a with
  | .RsaSignPss2048Sha256 | .RsaSignPss3072Sha256 | .RsaSignPss4096Sha256 =>
      some { algorithm := "RSA-PSS-SHA256", jwt_alg := "PS256" }
  | .RsaSignPss4096Sha512 =>
      some { algorithm := "RSA-PSS-SHA512", jwt_alg := "PS512" }
  | .RsaSignPkcs12048Sha256 | .RsaSignPkcs13072Sha256 | .RsaSignPkcs14096Sha256 =>
      some { algorithm := "RSA-PKCS1-SHA256", jwt_alg := "RS256" }
  | .RsaSignPkcs14096Sha512 =>
      some { algorithm := "RSA-PKCS1-SHA512", jwt_alg := "RS512" }
  | .EcSignP256Sha256 =>
      some { algorithm := "ECDSA-P256", jwt_alg := "ES256" }
  | .EcSignP384Sha384 =>
      some { algorithm := "ECDSA-P384", jwt_alg := "ES384" }
  | .EcSignEd25519 =>
      some { algorithm := "EdDSA-Ed25519", jwt_alg := "Ed25519" }
  | _ => none

/-- The eleven identifiers of the supported table (§4.1). -/
def supported_algorithms : List CryptoKeyVersionAlgorithm :=
  [.RsaSignPss2048Sha256, .RsaSignPss3072Sha256, .RsaSignPss4096Sha256,
   .RsaSignPss4096Sha512,
   .RsaSignPkcs12048Sha256, .RsaSignPkcs13072Sha256, .RsaSignPkcs14096Sha256,
   .RsaSignPkcs14096Sha512,
   .EcSignP256Sha256, .EcSignP384Sha384, .EcSignEd25519]

/-- C1: every remote algorithm identifier in the supported table of §4.1 maps
under `get_algorithm_info` to `some` descriptor whose (name, protocolCode)
pair equals the table row, with key-size variants sharing padding and hash
collapsed onto one descriptor. -/
theorem c1_supported_table_exact :
    get_algorithm_info .RsaSignPss2048Sha256
        = some { algorithm := "RSA-PSS-SHA256", jwt_alg := "PS256" } ∧
    get_algorithm_info .RsaSignPss3072Sha256
        = some { algorithm := "RSA-PSS-SHA256", jwt_alg := "PS256" } ∧
    get_algorithm_info .RsaSignPss4096Sha256
        = some { algorithm := "RSA-PSS-SHA256", jwt_alg := "PS256" } ∧
    get_algorithm_info .RsaSignPss4096Sha512
        = some { algorithm := "RSA-PSS-SHA512", jwt_alg := "PS512" } ∧
    get_algorithm_info .RsaSignPkcs12048Sha256
        = some { algorithm := "RSA-PKCS1-SHA256", jwt_alg := "RS256" } ∧
    get_algorithm_info .RsaSignPkcs13072Sha256
        = some { algorithm := "RSA-PKCS1-SHA256", jwt_alg := "RS256" } ∧
    get_algorithm_info .RsaSignPkcs14096Sha256
        = some { algorithm := "RSA-PKCS1-SHA256", jwt_alg := "RS256" } ∧
    get_algorithm_info .RsaSignPkcs14096Sha512
        = some { algorithm := "RSA-PKCS1-SHA512", jwt_alg := "RS512" } ∧
    get_algorithm_info .EcSignP256Sha256
        = some { algorithm := "ECDSA-P256", jwt_alg := "ES256" } ∧
    get_algorithm_info .EcSignP384Sha384
        = some { algorithm := "ECDSA-P384", jwt_alg := "ES384" } ∧
    get_algorithm_info .EcSignEd25519
        = some { algorithm := "EdDSA-Ed25519", jwt_alg := "Ed25519" } :=
  ⟨rfl, rfl, rfl, rfl, rfl, rfl, rfl, rfl, rfl, rfl, rfl⟩

/-- The relevant part of `CryptoKeyVersion` returned by
`get_crypto_key_version`: its resource name and its reported algorithm. -/
structure CryptoKeyVersion where
  name : String
  algorithm : CryptoKeyVersionAlgorithm
  deriving DecidableEq, Repr

/-- The relevant part of `AsymmetricSignResponse`: the resource name echoed
back and the signature bytes. -/
structure AsymmetricSignResponse where
  name : String
  signature : Bytes
  deriving DecidableEq, Repr

/-- The external KMS collaborator (`KeyManagementService`), modelled at the
interface boundary of §6: one oracle function per remote call consumed by
the source, returning `Except` over an abstract error type `ε`
(`google_cloud_kms_v1::Error`, never inspected by the source). -/
structure KeyManagementService (ε : Type) where
  get_crypto_key_version : String → Except ε CryptoKeyVersion
  asymmetric_sign : String → Bytes → Except ε AsymmetricSignResponse

/-- `SetupError` from kms.rs: either the metadata fetch failed (wrapping the
underlying KMS error) or the reported algorithm is unsupported (carrying the
reported identifier verbatim). -/
inductive SetupError (ε : Type) where
  | GetCryptoKey (source : ε)
  | UnsupportedAlgorithm (algorithm : CryptoKeyVersionAlgorithm)
  deriving DecidableEq

/-- `SigningError` from kms.rs: the sign call failed, wrapping the
underlying KMS error. -/
inductive SigningError (ε : Type) where
  | AsymmetricSign (source : ε)
  deriving DecidableEq

/-- `AsymmetricJwsKey` from kms.rs: the KMS client, the full resource name
of the key, and the algorithm information resolved at construction. -/
structure AsymmetricJwsKey (ε : Type) where
  client : KeyManagementService ε
  resource_name : String
  algorithm_info : AlgorithmInfo

/-- `get_algorithm_info_for_resource` from kms.rs: fetch the crypto key
version, wrap a fetch failure in `GetCryptoKey`, then look the reported
algorithm up in the catalog, reporting `UnsupportedAlgorithm` with the
reported value when the lookup yields `none`. -/
def get_algorithm_info_for_resource (kms_client : KeyManagementService ε)
    (resource_name : String) : Except (SetupError ε) AlgorithmInfo :=
  match kms_client.get_crypto_key_version resource_name with
  | .error e => .error (.GetCryptoKey e)
  | .ok key_version =>
      match get_algorithm_info key_version.algorithm with
      | none => .error (.UnsupportedAlgorithm key_version.algorithm)
      | some info => .ok info

/-- `AsymmetricJwsKey::new` from kms.rs: resolve the algorithm for the
resource and, on success, build the key holding the client, the resource
name and the resolved algorithm information. -/
def AsymmetricJwsKey.new (kms_client : KeyManagementService ε)
    (resource_name : String) : Except (SetupError ε) (AsymmetricJwsKey ε) :=
  match get_algorithm_info_for_resource kms_client resource_name with
  | .error e => .error e
  | .ok algorithm_info =>
      .ok { client := kms_client, resource_name := resource_name,
            algorithm_info := algorithm_info }

/-- `Signer::algorithm` for `AsymmetricJwsKey`: the human readable name of
the resolved algorithm information. -/
def AsymmetricJwsKey.algorithm (key : AsymmetricJwsKey ε) : String :=
  key.algorithm_info.algorithm

/-- `Signer::sign` for `AsymmetricJwsKey`: forward the stored resource name
and the input bytes to the collaborator, wrap a failure in
`AsymmetricSign`, and return the response's signature bytes. -/
def AsymmetricJwsKey.sign (key : AsymmetricJwsKey ε) (input : Bytes) :
    Except (SigningError ε) Bytes :=
  match key.client.asymmetric_sign key.resource_name input with
  | .error e => .error (.AsymmetricSign e)
  | .ok result => .ok result.signature

/-- Inversion of a successful `get_algorithm_info_for_resource` run: the
metadata fetch succeeded and the catalog resolved the reported algorithm to
exactly the returned information. -/
theorem get_algorithm_info_for_resource_ok {ε : Type}
    {kms_client : KeyManagementService ε} {resource_name : String}
    {info : AlgorithmInfo}
    (h : get_algorithm_info_for_resource kms_client resource_name = .ok info) :
    ∃ kv, kms_client.get_crypto_key_version resource_name = .ok kv ∧
      get_algorithm_info kv.algorithm = some info := by
  unfold get_algorithm_info_for_resource at h
  cases hc : kms_client.get_crypto_key_version resource_name with
  | error e => simp [hc] at h
  | ok kv =>
      simp only [hc] at h
      cases ha : get_algorithm_info kv.algorithm with
      | none => simp [ha] at h
      | some i =>
          simp only [ha, Except.ok.injEq] at h
          subst h
          exact ⟨kv, rfl, ha⟩

/-- Inversion of a successful `AsymmetricJwsKey.new` run: the key holds the
given client and resource name, and its algorithm information is the
catalog's resolution of the algorithm reported by the metadata fetch. -/
theorem AsymmetricJwsKey.new_ok {ε : Type}
    {kms_client : KeyManagementService ε} {resource_name : String}
    {key : AsymmetricJwsKey ε}
    (h : AsymmetricJwsKey.new kms_client resource_name = .ok key) :
    key.client = kms_client ∧ key.resource_name = resource_name ∧
    ∃ kv, kms_client.get_crypto_key_version resource_name = .ok kv ∧
      get_algorithm_info kv.algorithm = some key.algorithm_info := by
  unfold AsymmetricJwsKey.new at h
  cases hr : get_algorithm_info_for_resource kms_client resource_name with
  | error e => simp [hr] at h
  | ok info =>
      simp only [hr, Except.ok.injEq] at h
      subst h
      exact ⟨rfl, rfl, get_algorithm_info_for_resource_ok hr⟩

/-- The payload of a secret version (`SecretPayload`): the raw secret
bytes. -/
structure SecretPayload where
  data : Bytes
  deriving DecidableEq, Repr

/-- The relevant part of the `access_secret_version` response: the resource
name and the optional payload (absent when the secret is disabled,
destroyed, or otherwise unavailable). -/
structure AccessSecretVersionResponse where
  name : String
  payload : Option SecretPayload
  deriving DecidableEq, Repr

/-- The external Secret Manager collaborator (`SecretManagerService`),
modelled at the interface boundary of §6 over an abstract error type `ε`
(`google_cloud_secretmanager_v1::Error`). -/
structure SecretManagerService (ε : Type) where
  access_secret_version : String → Except ε AccessSecretVersionResponse

/-- The `SecretEncoding` trait from chewie-crypto, as consumed by
secretmanager.rs: a pure decode function from raw bytes to a typed output,
fallible with an encoding error of type `εd` (`EncodingError`). -/
structure SecretEncoding (Output : Type) (εd : Type) where
  decode : Bytes → Except εd Output

/-- `SecretSourceError` from secretmanager.rs: the access failed (wrapping
the underlying API error), the response had no payload, or the payload
bytes failed to decode (wrapping the encoding error). -/
inductive SecretSourceError (ε εd : Type) where
  | AccessSecret (source : ε)
  | MissingPayload
  | Decode (source : εd)
  deriving DecidableEq

/-- `SecretManagerSource` from secretmanager.rs: the Secret Manager client,
the secret resource name, and the encoding applied to the secret data. -/
structure SecretManagerSource (Output ε εd : Type) where
  client : SecretManagerService ε
  resource_name : String
  encoding : SecretEncoding Output εd

/-- `SecretSource::get_secret` for `SecretManagerSource`: access the secret
version (wrapping a failure in `AccessSecret`), require a payload
(`MissingPayload` otherwise), and decode the payload data (wrapping a
decode failure in `Decode`). -/
def SecretManagerSource.get_secret (s : SecretManagerSource Output ε εd) :
    Except (SecretSourceError ε εd) Output :=
  match s.client.access_secret_version s.resource_name with
  | .error e => .error (.AccessSecret e)
  | .ok response =>
      match response.payload with
      | none => .error .MissingPayload
      | some payload =>
          match s.encoding.decode payload.data with
          | .error e => .error (.Decode e)
          | .ok output => .ok output

/-- C2: every remote algorithm identifier outside the §4.1 table maps to
`none` under `get_algorithm_info` (never a fallback descriptor), and
constructing an `AsymmetricJwsKey` against a metadata fetch reporting such
an identifier fails with `UnsupportedAlgorithm` carrying that identifier
verbatim, producing no key. -/
theorem c2_unsupported_algorithm_rejected (ε : Type)
    (a : CryptoKeyVersionAlgorithm) (h : a ∉ supported_algorithms) :
    get_algorithm_info a = none ∧
    ∀ (kms_client : KeyManagementService ε) (resource_name kv_name : String),
      kms_client.get_crypto_key_version resource_name
          = .ok { name := kv_name, algorithm := a } →
      AsymmetricJwsKey.new kms_client resource_name
          = .error (.UnsupportedAlgorithm a) := by
  have hnone : get_algorithm_info a = none := by
    cases a <;> first | rfl | exact absurd (by decide) h
  refine ⟨hnone, ?_⟩
  intro kms_client resource_name kv_name hc
  simp [AsymmetricJwsKey.new, get_algorithm_info_for_resource, hc, hnone]

/-- A KMS oracle reporting the post-quantum KEM identifier that the
repository's own unsupported-algorithm test uses. -/
def kem_xwing_client : KeyManagementService Nat :=
  { get_crypto_key_version := fun name =>
      .ok { name := name, algorithm := .KemXwing },
    asymmetric_sign := fun _ _ => .error 0 }

/-- Witness for C2 at the concrete identifier `KemXwing`. -/
theorem c2_unsupported_algorithm_rejected_witness :
    get_algorithm_info .KemXwing = none ∧
    AsymmetricJwsKey.new kem_xwing_client "projects/p/cryptoKeyVersions/1"
        = .error (.UnsupportedAlgorithm .KemXwing) := by
  obtain ⟨h1, h2⟩ := c2_unsupported_algorithm_rejected Nat .KemXwing (by decide)
  exact ⟨h1, h2 kem_xwing_client "projects/p/cryptoKeyVersions/1"
    "projects/p/cryptoKeyVersions/1" rfl⟩

/-- C4: `sign` forwards the stored resource name and the input data
verbatim to the collaborator's sign operation; a successful response yields
exactly the response's signature bytes, and a failure yields
`SigningError.AsymmetricSign` wrapping the underlying cause. -/
theorem c4_sign_verbatim_passthrough (ε : Type) (key : AsymmetricJwsKey ε)
    (data : Bytes) :
    (∀ response,
      key.client.asymmetric_sign key.resource_name data = .ok response →
      key.sign data = .ok response.signature) ∧
    (∀ e, key.client.asymmetric_sign key.resource_name data = .error e →
      key.sign data = .error (.AsymmetricSign e)) := by
  constructor <;> intro x hx <;> simp [AsymmetricJwsKey.sign, hx]

/-- A KMS oracle whose sign operation returns a fixed signature. -/
def fixed_signature_client : KeyManagementService Nat :=
  { get_crypto_key_version := fun name =>
      .ok { name := name, algorithm := .RsaSignPkcs12048Sha256 },
    asymmetric_sign := fun name _ =>
      .ok { name := name, signature := [11, 22, 33] } }

/-- A key over `fixed_signature_client`, as built by construction. -/
def fixed_signature_key : AsymmetricJwsKey Nat :=
  { client := fixed_signature_client,
    resource_name := "projects/p/cryptoKeyVersions/1",
    algorithm_info := { algorithm := "RSA-PKCS1-SHA256", jwt_alg := "RS256" } }

/-- Witness for C4: signing concrete data returns the collaborator's
signature bytes unchanged. -/
theorem c4_sign_verbatim_passthrough_witness :
    fixed_signature_key.sign [100, 97, 116, 97] = .ok [11, 22, 33] :=
  (c4_sign_verbatim_passthrough Nat fixed_signature_key [100, 97, 116, 97]).1
    { name := "projects/p/cryptoKeyVersions/1", signature := [11, 22, 33] } rfl

/-- C6: construction is all-or-nothing: a successfully constructed key
holds an algorithm descriptor both of whose fields come from the catalog's
resolution of the algorithm reported by the metadata fetch; a failed
construction yields an error and no key. -/
theorem c6_construction_all_or_nothing (ε : Type)
    (kms_client : KeyManagementService ε) (resource_name : String)
    (key : AsymmetricJwsKey ε)
    (h : AsymmetricJwsKey.new kms_client resource_name = .ok key) :
    ∃ kv, kms_client.get_crypto_key_version resource_name = .ok kv ∧
      ∃ info, get_algorithm_info kv.algorithm = some info ∧
        key.algorithm_info.algorithm = info.algorithm ∧
        key.algorithm_info.jwt_alg = info.jwt_alg := by
  obtain ⟨-, -, kv, hkv, hinfo⟩ := AsymmetricJwsKey.new_ok h
  exact ⟨kv, hkv, key.algorithm_info, hinfo, rfl, rfl⟩

/-- A KMS oracle reporting a supported RSA-PSS identifier. -/
def pss_client : KeyManagementService Nat :=
  { get_crypto_key_version := fun name =>
      .ok { name := name, algorithm := .RsaSignPss2048Sha256 },
    asymmetric_sign := fun name _ => .ok { name := name, signature := [] } }

/-- Witness for C6 at a concrete successful construction. -/
theorem c6_construction_all_or_nothing_witness :
    ({ client := pss_client, resource_name := "k6",
       algorithm_info := { algorithm := "RSA-PSS-SHA256", jwt_alg := "PS256" } } :
      AsymmetricJwsKey Nat).algorithm_info.algorithm = "RSA-PSS-SHA256" ∧
    ({ client := pss_client, resource_name := "k6",
       algorithm_info := { algorithm := "RSA-PSS-SHA256", jwt_alg := "PS256" } } :
      AsymmetricJwsKey Nat).algorithm_info.jwt_alg = "PS256" := by
  obtain ⟨kv, hkv, info, hinfo, h1, h2⟩ :=
    c6_construction_all_or_nothing Nat pss_client "k6"
      { client := pss_client, resource_name := "k6",
        algorithm_info := { algorithm := "RSA-PSS-SHA256", jwt_alg := "PS256" } }
      rfl
  cases Except.ok.inj hkv
  cases Option.some.inj hinfo
  exact ⟨h1, h2⟩

/-- C7: for every successfully constructed key, `algorithm` returns exactly
the name field of the descriptor resolved at construction; it is a pure
total function on the key (no I/O, never fails). -/
theorem c7_algorithm_returns_resolved_name (ε : Type)
    (kms_client : KeyManagementService ε) (resource_name : String)
    (key : AsymmetricJwsKey ε)
    (h : AsymmetricJwsKey.new kms_client resource_name = .ok key) :
    key.algorithm = key.algorithm_info.algorithm ∧
    ∃ kv, kms_client.get_crypto_key_version resource_name = .ok kv ∧
      ∃ info, get_algorithm_info kv.algorithm = some info ∧
        key.algorithm = info.algorithm := by
  obtain ⟨-, -, kv, hkv, hinfo⟩ := AsymmetricJwsKey.new_ok h
  exact ⟨rfl, kv, hkv, key.algorithm_info, hinfo, rfl⟩

/-- A KMS oracle reporting the ECDSA P-256 identifier. -/
def p256_client : KeyManagementService Nat :=
  { get_crypto_key_version := fun name =>
      .ok { name := name, algorithm := .EcSignP256Sha256 },
    asymmetric_sign := fun name _ => .ok { name := name, signature := [] } }

/-- Witness for C7 at a concrete successful construction. -/
theorem c7_algorithm_returns_resolved_name_witness :
    ({ client := p256_client, resource_name := "k7",
       algorithm_info := { algorithm := "ECDSA-P256", jwt_alg := "ES256" } } :
      AsymmetricJwsKey Nat).algorithm = "ECDSA-P256" := by
  obtain ⟨h1, kv, hkv, info, hinfo, h2⟩ :=
    c7_algorithm_returns_resolved_name Nat p256_client "k7"
      { client := p256_client, resource_name := "k7",
        algorithm_info := { algorithm := "ECDSA-P256", jwt_alg := "ES256" } }
      rfl
  cases Except.ok.inj hkv
  cases Option.some.inj hinfo
  exact h2

/-- C8: algorithm resolution is deterministic: two constructions against
the same resource name, with backends that report equal algorithm
identifiers, yield keys with equal `algorithm` outputs. -/
theorem c8_deterministic_resolution (ε₁ ε₂ : Type)
    (client₁ : KeyManagementService ε₁) (client₂ : KeyManagementService ε₂)
    (resource_name : String) (kv₁ kv₂ : CryptoKeyVersion)
    (key₁ : AsymmetricJwsKey ε₁) (key₂ : AsymmetricJwsKey ε₂)
    (h₁ : client₁.get_crypto_key_version resource_name = .ok kv₁)
    (h₂ : client₂.get_crypto_key_version resource_name = .ok kv₂)
    (halg : kv₁.algorithm = kv₂.algorithm)
    (hk₁ : AsymmetricJwsKey.new client₁ resource_name = .ok key₁)
    (hk₂ : AsymmetricJwsKey.new client₂ resource_name = .ok key₂) :
    key₁.algorithm = key₂.algorithm := by
  obtain ⟨-, -, kv₁b, hkv₁, hinfo₁⟩ := AsymmetricJwsKey.new_ok hk₁
  obtain ⟨-, -, kv₂b, hkv₂, hinfo₂⟩ := AsymmetricJwsKey.new_ok hk₂
  cases Except.ok.inj (h₁.symm.trans hkv₁)
  cases Except.ok.inj (h₂.symm.trans hkv₂)
  rw [halg] at hinfo₁
  have : key₁.algorithm_info = key₂.algorithm_info :=
    Option.some.inj (hinfo₁.symm.trans hinfo₂)
  exact congrArg AlgorithmInfo.algorithm this

/-- A KMS oracle reporting the ECDSA P-384 identifier, with Nat errors. -/
def p384_client_a : KeyManagementService Nat :=
  { get_crypto_key_version := fun name =>
      .ok { name := name, algorithm := .EcSignP384Sha384 },
    asymmetric_sign := fun name _ => .ok { name := name, signature := [1] } }

/-- A second, independent KMS oracle reporting the same identifier, with
String errors. -/
def p384_client_b : KeyManagementService String :=
  { get_crypto_key_version := fun name =>
      .ok { name := name, algorithm := .EcSignP384Sha384 },
    asymmetric_sign := fun _ _ => .error "no signing" }

/-- Witness for C8: two concrete constructions over distinct backends that
report the same identifier agree on `algorithm`. -/
theorem c8_deterministic_resolution_witness :
    ({ client := p384_client_a, resource_name := "k8",
       algorithm_info := { algorithm := "ECDSA-P384", jwt_alg := "ES384" } } :
      AsymmetricJwsKey Nat).algorithm
      = ({ client := p384_client_b, resource_name := "k8",
           algorithm_info := { algorithm := "ECDSA-P384", jwt_alg := "ES384" } } :
          AsymmetricJwsKey String).algorithm :=
  c8_deterministic_resolution Nat String p384_client_a p384_client_b "k8"
    { name := "k8", algorithm := .EcSignP384Sha384 }
    { name := "k8", algorithm := .EcSignP384Sha384 }
    { client := p384_client_a, resource_name := "k8",
      algorithm_info := { algorithm := "ECDSA-P384", jwt_alg := "ES384" } }
    { client := p384_client_b, resource_name := "k8",
      algorithm_info := { algorithm := "ECDSA-P384", jwt_alg := "ES384" } }
    rfl rfl rfl rfl rfl

/-- The derived `Debug` formatting of `AlgorithmInfo` (the
`derive(Debug)` at kms.rs:38): the standard derive output
`AlgorithmInfo { algorithm: "...", jwt_alg: "..." }`, for field values
without embedded quotes.  Literal braces appear as their escapes. -/
def AlgorithmInfo.debug_fmt (info : AlgorithmInfo) : String :=
  "AlgorithmInfo \x7b algorithm: \"" ++ info.algorithm ++
    "\", jwt_alg: \"" ++ info.jwt_alg ++ "\" \x7d"

/-- The derived `Debug` formatting of `AsymmetricJwsKey` (the
`derive(Debug)` at kms.rs:48), parameterised by the client's own `Debug`
output: the standard derive output listing every field, including the
`algorithm_info` field formatted by `AlgorithmInfo.debug_fmt`. -/
def AsymmetricJwsKey.debug_fmt (key : AsymmetricJwsKey ε)
    (client_fmt : String) : String :=
  "AsymmetricJwsKey \x7b client: " ++ client_fmt ++
    ", resource_name: \"" ++ key.resource_name ++
    "\", algorithm_info: " ++ key.algorithm_info.debug_fmt ++ " \x7d"

/-- C10 (amended): the protocol code (`jwt_alg`) is not observable through
the operations of the `Signer` interface (`algorithm` and `sign`): two keys
equal in client, resource name and descriptor name, but with arbitrary
(possibly different) protocol codes, have identical `algorithm` outputs and
identical `sign` behaviour on every input.  The derived public `Debug`
formatting, by contrast, does expose the protocol code (see the
counterexample to the unamended claim). -/
theorem c10_jwt_alg_unobservable (ε : Type)
    (key₁ key₂ : AsymmetricJwsKey ε)
    (hc : key₁.client = key₂.client)
    (hr : key₁.resource_name = key₂.resource_name)
    (hn : key₁.algorithm_info.algorithm = key₂.algorithm_info.algorithm) :
    key₁.algorithm = key₂.algorithm ∧
    ∀ data, key₁.sign data = key₂.sign data := by
  refine ⟨hn, fun data => ?_⟩
  unfold AsymmetricJwsKey.sign
  rw [hc, hr]

/-- A key whose protocol code is the standard one. -/
def c10_key_std : AsymmetricJwsKey Nat :=
  { client := fixed_signature_client, resource_name := "r10",
    algorithm_info := { algorithm := "ECDSA-P256", jwt_alg := "ES256" } }

/-- The same key except for a deviating protocol code. -/
def c10_key_dev : AsymmetricJwsKey Nat :=
  { client := fixed_signature_client, resource_name := "r10",
    algorithm_info := { algorithm := "ECDSA-P256", jwt_alg := "OTHER-CODE" } }

/-- Witness for C10: concrete keys differing only in the protocol code
agree on `algorithm` and on `sign` at a concrete input. -/
theorem c10_jwt_alg_unobservable_witness :
    c10_key_std.algorithm = c10_key_dev.algorithm ∧
    c10_key_std.sign [1, 2] = c10_key_dev.sign [1, 2] := by
  obtain ⟨h1, h2⟩ :=
    c10_jwt_alg_unobservable Nat c10_key_std c10_key_dev rfl rfl rfl
  exact ⟨h1, h2 [1, 2]⟩

/-- Counterexample to C10 as frozen: the protocol code is observable
through a public operation after all.  Two concrete keys equal in client,
resource name and descriptor name, differing only in `jwt_alg`, produce
different outputs of the public derived `Debug` formatting, which formats
the `jwt_alg` field. -/
theorem c10_jwt_alg_observable_via_debug :
    c10_key_std.client = c10_key_dev.client ∧
    c10_key_std.resource_name = c10_key_dev.resource_name ∧
    c10_key_std.algorithm_info.algorithm = c10_key_dev.algorithm_info.algorithm ∧
    c10_key_std.algorithm_info.jwt_alg ≠ c10_key_dev.algorithm_info.jwt_alg ∧
    c10_key_std.debug_fmt "KeyManagementService"
      ≠ c10_key_dev.debug_fmt "KeyManagementService" :=
  ⟨rfl, rfl, rfl, by decide, by decide⟩

/-- C5: `get_secret` has exactly the four specified outcomes, in order: an
access failure yields `AccessSecret` wrapping the cause; a successful
response without payload yields `MissingPayload`; a payload whose bytes
fail to decode yields `Decode` wrapping the original decode error; and a
payload whose bytes decode yields the typed output. -/
theorem c5_get_secret_outcomes (Output ε εd : Type)
    (s : SecretManagerSource Output ε εd) :
    (∀ e, s.client.access_secret_version s.resource_name = .error e →
      s.get_secret = .error (.AccessSecret e)) ∧
    (∀ response,
      s.client.access_secret_version s.resource_name = .ok response →
      response.payload = none →
      s.get_secret = .error .MissingPayload) ∧
    (∀ response payload e,
      s.client.access_secret_version s.resource_name = .ok response →
      response.payload = some payload →
      s.encoding.decode payload.data = .error e →
      s.get_secret = .error (.Decode e)) ∧
    (∀ response payload output,
      s.client.access_secret_version s.resource_name = .ok response →
      response.payload = some payload →
      s.encoding.decode payload.data = .ok output →
      s.get_secret = .ok output) := by
  refine ⟨?_, ?_, ?_, ?_⟩ <;> intros <;>
    simp [SecretManagerSource.get_secret, *]

/-- A Secret Manager oracle whose secret version has no payload, as for a
disabled or destroyed secret. -/
def disabled_secret_client : SecretManagerService Nat :=
  { access_secret_version := fun name =>
      .ok { name := name, payload := none } }

/-- A source over `disabled_secret_client`. -/
def disabled_secret_source : SecretManagerSource String Nat Nat :=
  { client := disabled_secret_client,
    resource_name := "projects/p/secrets/s/versions/1",
    encoding := { decode := fun _ => .error 0 } }

/-- Witness for C5 at the missing-payload outcome. -/
theorem c5_get_secret_outcomes_witness :
    disabled_secret_source.get_secret = .error .MissingPayload :=
  (c5_get_secret_outcomes String Nat Nat disabled_secret_source).2.1
    { name := "projects/p/secrets/s/versions/1", payload := none } rfl rfl

/-- C9: a present-but-empty payload is not treated as missing: when the
response carries a payload whose data is the empty byte string,
`get_secret` never returns `MissingPayload`; it returns exactly the result
of decoding the empty bytes (the typed output on success, `Decode` wrapping
the cause on failure). -/
theorem c9_empty_payload_not_missing (Output ε εd : Type)
    (s : SecretManagerSource Output ε εd)
    (response : AccessSecretVersionResponse)
    (h : s.client.access_secret_version s.resource_name = .ok response)
    (hp : response.payload = some { data := [] }) :
    s.get_secret ≠ .error .MissingPayload ∧
    (∀ output, s.encoding.decode [] = .ok output → s.get_secret = .ok output) ∧
    (∀ e, s.encoding.decode [] = .error e →
      s.get_secret = .error (.Decode e)) := by
  refine ⟨?_, ?_, ?_⟩
  · cases hd : s.encoding.decode ([] : Bytes) <;>
      simp [SecretManagerSource.get_secret, h, hp, hd]
  · intro output hd
    simp [SecretManagerSource.get_secret, h, hp, hd]
  · intro e hd
    simp [SecretManagerSource.get_secret, h, hp, hd]

/-- A Secret Manager oracle whose secret version carries an empty
payload. -/
def empty_payload_client : SecretManagerService Nat :=
  { access_secret_version := fun name =>
      .ok { name := name, payload := some { data := [] } } }

/-- A source over `empty_payload_client` whose encoding decodes bytes to
their length. -/
def empty_payload_source : SecretManagerSource Nat Nat Nat :=
  { client := empty_payload_client,
    resource_name := "projects/p/secrets/s/versions/2",
    encoding := { decode := fun b => .ok b.length } }

/-- Witness for C9: the concrete empty payload decodes successfully rather
than reporting a missing payload. -/
theorem c9_empty_payload_not_missing_witness :
    empty_payload_source.get_secret = .ok 0 := by
  obtain ⟨-, h2, -⟩ :=
    c9_empty_payload_not_missing Nat Nat Nat empty_payload_source
      { name := "projects/p/secrets/s/versions/2",
        payload := some { data := [] } }
      rfl rfl
  exact h2 0 rfl

end ChewieCryptoGcp
